import Mathlib

/-!
Shallow embedding of the BLE power-meter acquisition core
(`dl24testload.py` and `ud18usbmeter.py`).  The two drivers are
byte-for-byte identical except for the frame-parsing arithmetic in
`handle_data`, so the embedding is parameterized by a `DeviceVariant`
tag whose two branches mirror the two files.
-/

namespace UDMeter

/-- Variant tag selecting the frame layout: `currentLoadMeter` is the
DL24 test load (`dl24testload.py`), `usbPowerMeter` is the UD18 USB
meter (`ud18usbmeter.py`). -/
inductive DeviceVariant where
  | currentLoadMeter
  | usbPowerMeter
deriving DecidableEq, Repr

/-- A device returned by the scan primitive (`BleakScanner.discover`). -/
structure BLEDevice where
  name : String
  address : String
deriving DecidableEq, Repr

/-- The mutable attributes of the `DL24TestLoad` / `UD18UsbMeter`
object that the embedded methods read or write.  The consumer callback
is a function in the source; here only its presence (`some ()`) or
absence (`none`) matters, and emitted events record the values it would
receive.  `client` records the address passed to `BleakClient`. -/
structure MeterState where
  dev_name : String
  dev_mac_addr : Option String
  callback : Option Unit
  device : Option BLEDevice
  client : Option String
deriving DecidableEq, Repr

/-- Python exceptions that the embedded code can raise.
`attributeError` models `AttributeError` from dereferencing `None`. -/
inductive PyError where
  | attributeError
deriving DecidableEq, Repr

/-- `data[i]` for a frame; every access in the source is guarded by
`len(data) == 36`, so the default is never exposed on guarded paths. -/
def byte (data : List ℕ) (i : ℕ) : ℕ :=
  data.getD i 0

/-- The normalized reading passed to the consumer callback:
`callback(v, a, mah, wh)`.  Python floats are modelled as rationals;
`mah` is an `int` in both drivers; `wh` is an `int` for the DL24 and a
float for the UD18, both embedded in `ℚ`. -/
structure Reading where
  voltageVolts : ℚ
  currentAmps : ℚ
  capacityMilliampHours : ℤ
  energyWattHours : ℚ
deriving DecidableEq, Repr

/-- Reason a frame fails to decode (spec data model §3); the source
only ever produces `wrongLength`. -/
inductive DecodeFailure where
  | wrongLength
  | unrecognizedPayload
deriving DecidableEq, Repr

/-- Outcome of decoding one raw frame. -/
inductive DecodeOutcome where
  | ok (r : Reading)
  | failure (f : DecodeFailure)
deriving DecidableEq, Repr

/-- The variant-specific parsing arithmetic, lines 74-77 of each file.
`currentLoadMeter` (dl24testload.py):
  `v   = float(int((data[4] << 16) + (data[5] << 8) + data[6])) / 10.0`
  `a   = float(int((data[7] << 16) + (data[8] << 8) + data[9])) / 1000.0`
  `mah =       int((data[10] << 16) + (data[11] << 8) + data[12]) * 10`
  `wh  =       int((data[13] << 24) + (data[14] << 16) + (data[15] << 8) + data[16]) * 10`
`usbPowerMeter` (ud18usbmeter.py):
  `v   = float(int((data[5] << 8) + data[6])) / 100.0`
  `a   = float(int((data[8] << 8) + data[9])) / 100.0`
  `mah =       int((data[10] << 16) + (data[11] << 8) + data[12])`
  `wh  = float(int((data[13] << 24) + (data[14] << 16) + (data[15] << 8) + data[16])) / 100.0` -/
def parseFrame : DeviceVariant → List ℕ → Reading
  | .currentLoadMeter, data =>
    { voltageVolts :=
        ((((byte data 4) <<< 16) + ((byte data 5) <<< 8) + byte data 6 : ℕ) : ℚ) / 10
      currentAmps :=
        ((((byte data 7) <<< 16) + ((byte data 8) <<< 8) + byte data 9 : ℕ) : ℚ) / 1000
      capacityMilliampHours :=
        ((((byte data 10) <<< 16) + ((byte data 11) <<< 8) + byte data 12 : ℕ) : ℤ) * 10
      energyWattHours :=
        ((((byte data 13) <<< 24) + ((byte data 14) <<< 16) + ((byte data 15) <<< 8)
            + byte data 16 : ℕ) : ℚ) * 10 }
  | .usbPowerMeter, data =>
    { voltageVolts :=
        ((((byte data 5) <<< 8) + byte data 6 : ℕ) : ℚ) / 100
      currentAmps :=
        ((((byte data 8) <<< 8) + byte data 9 : ℕ) : ℚ) / 100
      capacityMilliampHours :=
        ((((byte data 10) <<< 16) + ((byte data 11) <<< 8) + byte data 12 : ℕ) : ℤ)
      energyWattHours :=
        ((((byte data 13) <<< 24) + ((byte data 14) <<< 16) + ((byte data 15) <<< 8)
            + byte data 16 : ℕ) : ℚ) / 100 }

/-- The FrameDecoder contract realised by the callback branch of
`handle_data` (lines 72-82): a 36-byte frame parses per the variant
table, any other length is silently rejected. -/
def decode (variant : DeviceVariant) (data : List ℕ) : DecodeOutcome :=
  if data.length = 36 then
    .ok (parseFrame variant data)
  else
    .failure .wrongLength

/-- Uppercase hex digit, for `"%02X" % d`. -/
def hexDigit (n : ℕ) : Char :=
  if n < 10 then Char.ofNat (48 + n) else Char.ofNat (55 + n)

/-- `"%02X" % d` for a bytearray element (0 ≤ d ≤ 255). -/
def byteHex (d : ℕ) : String :=
  String.mk [hexDigit ((d / 16) % 16), hexDigit (d % 16)]

/-- The accumulation loop `for d in data: s += "%02X " % d`. -/
def hexLine (data : List ℕ) : String :=
  data.foldl (fun s d => s ++ byteHex d ++ " ") ""

/-- Observable effects of `handle_data`: a console print, or an
invocation of the consumer callback with a decoded reading. -/
inductive MeterEvent where
  | printed (s : String)
  | calledBack (r : Reading)
deriving DecidableEq, Repr

/-- `handle_data` (lines 64-82 of each file): with no callback, print
the frame as hex (`print("data: %s" % s.strip())`); with a callback,
parse exactly the 36-byte frames and pass the reading to the callback,
silently dropping every other length.  The method assigns no attribute,
so the state component of the result is the input state. -/
def handle_data (variant : DeviceVariant) (st : MeterState) (data : List ℕ) :
    MeterState × List MeterEvent :=
  match st.callback with
  | none => (st, [.printed ("data: " ++ (hexLine data).trim)])
  | some _ =>
    if data.length = 36 then
      (st, [.calledBack (parseFrame variant data)])
    else
      (st, [])

/-- `find_device` (lines 27-36 of each file).  For each scanned device
in order: if its name equals `self.dev_name`, store and return it;
otherwise, if `self.dev_mac_addr` is set, evaluate
`self.device.address.lower() == self.dev_mac_addr.lower()` — note the
source reads the address of the **stored** `self.device` (initially
`None`, raising `AttributeError`), not of the candidate `d`. -/
def findDeviceLoop (st : MeterState) : List BLEDevice → Except PyError (MeterState × Option BLEDevice)
  | [] => .ok (st, none)
  | d :: ds =>
    if d.name = st.dev_name then
      .ok ({ st with device := some d }, some d)
    else
      match st.dev_mac_addr with
      | none => findDeviceLoop st ds
      | some mac =>
        match st.device with
        | none => .error .attributeError
        | some dev =>
          if dev.address.toLower = mac.toLower then
            .ok ({ st with device := some d }, some d)
          else
            findDeviceLoop st ds

/-- `find_device` applied to the result of one scan pass
(`await BleakScanner.discover()`). -/
def find_device (st : MeterState) (scan : List BLEDevice) :
    Except PyError (MeterState × Option BLEDevice) :=
  findDeviceLoop st scan

/-- Result of the `while self.device is None` scan loop in `connect`
(lines 40-50).  `passesUsed` counts calls to `find_device`;
`exhausted` marks that the loop would scan again but the modelled
sequence of scan passes has run out. -/
inductive ScanPhaseResult where
  | found (st : MeterState) (d : BLEDevice) (passesUsed : ℕ)
  | gaveUp (st : MeterState) (passesUsed : ℕ)
  | raised (e : PyError) (passesUsed : ℕ)
  | exhausted (passesUsed : ℕ)
deriving DecidableEq, Repr

/-- The scan loop of `connect`: while `self.device is None`, call
`find_device`; if a device was stored, break; otherwise return `False`
unless `keep_trying`. -/
def connectScanLoop (keep_trying : Bool) :
    MeterState → List (List BLEDevice) → ScanPhaseResult
  | st, [] =>
    match st.device with
    | some d => .found st d 0
    | none => .exhausted 0
  | st, p :: rest =>
    match st.device with
    | some d => .found st d 0
    | none =>
      match find_device st p with
      | .error e => .raised e 1
      | .ok (st', _) =>
        match st'.device with
        | some d => .found st' d 1
        | none =>
          if keep_trying then
            match connectScanLoop keep_trying st' rest with
            | .found s dd n => .found s dd (n + 1)
            | .gaveUp s n => .gaveUp s (n + 1)
            | .raised e n => .raised e (n + 1)
            | .exhausted n => .exhausted (n + 1)
          else
            .gaveUp st' 1

/-- Outcome of `connect` (lines 38-62): the returned boolean, or a
raised exception, or exhaustion of the modelled scan passes. -/
inductive ConnectOutcome where
  | returned (b : Bool) (st : MeterState) (passesUsed : ℕ)
  | raised (e : PyError) (passesUsed : ℕ)
  | exhausted (passesUsed : ℕ)
deriving DecidableEq, Repr

/-- `connect`: run the scan loop; on success build a `BleakClient` on
the discovered address and attempt the link connect (`connectOk` models
the external primitive's result); `start_notify` then succeeds and
`True` is returned, else `False`. -/
def connect (keep_trying : Bool) (st : MeterState) (passes : List (List BLEDevice))
    (connectOk : Bool) : ConnectOutcome :=
  match connectScanLoop keep_trying st passes with
  | .raised e n => .raised e n
  | .exhausted n => .exhausted n
  | .gaveUp st' n => .returned false st' n
  | .found st' d n =>
    let st'' := { st' with client := some d.address }
    if connectOk then
      .returned true st'' n
    else
      .returned false st'' n

/-- The telemetry pump: deliver a sequence of inbound frames to
`handle_data` in arrival order, threading the object state and
concatenating the observable events. -/
def pump (variant : DeviceVariant) (st : MeterState) :
    List (List ℕ) → MeterState × List MeterEvent
  | [] => (st, [])
  | f :: rest =>
    let r := handle_data variant st f
    let r2 := pump variant r.1 rest
    (r2.1, r.2 ++ r2.2)

/-- Scenario A frame: bytes 4-16 are
`00 00 C8 00 03 E8 00 00 05 00 00 00 32`, rest zero, length 36. -/
def scenarioA : List ℕ :=
  [0x00, 0x00, 0x00, 0x00,
   0x00, 0x00, 0xC8,
   0x00, 0x03, 0xE8,
   0x00, 0x00, 0x05,
   0x00, 0x00, 0x00, 0x32] ++ List.replicate 19 0

/-- Scenario B frame: bytes[5..7] = 0x0BB8, bytes[8..10] = 0x01F4,
bytes[10..13] = 0x000064, bytes[13..17] = 0x00002710, length 36. -/
def scenarioB : List ℕ :=
  [0x00, 0x00, 0x00, 0x00, 0x00,
   0x0B, 0xB8,
   0x00,
   0x01, 0xF4,
   0x00, 0x00, 0x64,
   0x00, 0x00, 0x27, 0x10] ++ List.replicate 19 0

/-- Scenario A with different junk in the bytes the decoder never
reads (0-3 and 17-35). -/
def scenarioAJunk : List ℕ :=
  [1, 2, 3, 4,
   0x00, 0x00, 0xC8,
   0x00, 0x03, 0xE8,
   0x00, 0x00, 0x05,
   0x00, 0x00, 0x00, 0x32] ++ List.replicate 19 7

/-- Scenario B with different junk in bytes 0-3, 17-35 and also in
bytes 4 and 7, which the UD18 layout skips. -/
def scenarioBJunk : List ℕ :=
  [9, 9, 9, 9, 77,
   0x0B, 0xB8,
   88,
   0x01, 0xF4,
   0x00, 0x00, 0x64,
   0x00, 0x00, 0x27, 0x10] ++ List.replicate 19 5

/-- A freshly constructed session with a consumer callback registered. -/
def stWithCb : MeterState :=
  { dev_name := "DL24_BLE", dev_mac_addr := none, callback := some ()
    device := none, client := none }

/-- A session mid-run, with a callback, a stored device and a client. -/
def stWithCbDev : MeterState :=
  { dev_name := "DL24_BLE", dev_mac_addr := some "27:4B:B0:47:69:84"
    callback := some (), device := some ⟨"DL24_BLE", "27:4B:B0:47:69:84"⟩
    client := some "27:4B:B0:47:69:84" }

/-- A freshly constructed session with no callback (raw-dump mode). -/
def stNoCb : MeterState :=
  { dev_name := "DL24_BLE", dev_mac_addr := none, callback := none
    device := none, client := none }

/-- A freshly constructed session with a manual MAC address configured. -/
def stMac : MeterState :=
  { dev_name := "DL24_BLE", dev_mac_addr := some "27:4B:B0:47:69:84"
    callback := none, device := none, client := none }

/-- `handle_data` assigns no attribute: the state it returns is the
state it was given. -/
theorem handle_data_fst (variant : DeviceVariant) (st : MeterState) (data : List ℕ) :
    (handle_data variant st data).1 = st := by
  by_cases hl : data.length = 36 <;> rcases h : st.callback with _ | u <;>
    simp [handle_data, h, hl]

/-- Claim C1: under the CurrentLoadMeter variant every 36-byte frame
decodes to voltage `((f4*2^16)+(f5*2^8)+f6)/10`, current
`((f7*2^16)+(f8*2^8)+f9)/1000`, capacity `((f10*2^16)+(f11*2^8)+f12)*10`
and energy `((f13*2^24)+(f14*2^16)+(f15*2^8)+f16)*10`. -/
theorem decode_currentLoadMeter_fields (data : List ℕ) (h : data.length = 36) :
    decode .currentLoadMeter data = .ok
      { voltageVolts :=
          (((byte data 4) * 2 ^ 16 + (byte data 5) * 2 ^ 8 + byte data 6 : ℕ) : ℚ) / 10
        currentAmps :=
          (((byte data 7) * 2 ^ 16 + (byte data 8) * 2 ^ 8 + byte data 9 : ℕ) : ℚ) / 1000
        capacityMilliampHours :=
          (((byte data 10) * 2 ^ 16 + (byte data 11) * 2 ^ 8 + byte data 12 : ℕ) : ℤ) * 10
        energyWattHours :=
          (((byte data 13) * 2 ^ 24 + (byte data 14) * 2 ^ 16 + (byte data 15) * 2 ^ 8
              + byte data 16 : ℕ) : ℚ) * 10 } := by
  simp [decode, parseFrame, h, Nat.shiftLeft_eq]

/-- Witness for C1: the Scenario A frame decodes to 20.0 V, 1.0 A,
50 mAh, 500 Wh. -/
theorem decode_currentLoadMeter_scenarioA :
    scenarioA.length = 36 ∧
    decode .currentLoadMeter scenarioA = .ok ⟨20, 1, 50, 500⟩ := by
  refine ⟨by decide, ?_⟩
  rw [decode_currentLoadMeter_fields scenarioA (by decide),
    show byte scenarioA 4 = 0 from rfl, show byte scenarioA 5 = 0 from rfl,
    show byte scenarioA 6 = 200 from rfl, show byte scenarioA 7 = 0 from rfl,
    show byte scenarioA 8 = 3 from rfl, show byte scenarioA 9 = 232 from rfl,
    show byte scenarioA 10 = 0 from rfl, show byte scenarioA 11 = 0 from rfl,
    show byte scenarioA 12 = 5 from rfl, show byte scenarioA 13 = 0 from rfl,
    show byte scenarioA 14 = 0 from rfl, show byte scenarioA 15 = 0 from rfl,
    show byte scenarioA 16 = 50 from rfl]
  norm_num

/-- Claim C2: under the UsbPowerMeter variant every 36-byte frame
decodes to voltage `((f5*2^8)+f6)/100`, current `((f8*2^8)+f9)/100`,
capacity `(f10*2^16)+(f11*2^8)+f12` and energy
`((f13*2^24)+(f14*2^16)+(f15*2^8)+f16)/100`. -/
theorem decode_usbPowerMeter_fields (data : List ℕ) (h : data.length = 36) :
    decode .usbPowerMeter data = .ok
      { voltageVolts := (((byte data 5) * 2 ^ 8 + byte data 6 : ℕ) : ℚ) / 100
        currentAmps := (((byte data 8) * 2 ^ 8 + byte data 9 : ℕ) : ℚ) / 100
        capacityMilliampHours :=
          (((byte data 10) * 2 ^ 16 + (byte data 11) * 2 ^ 8 + byte data 12 : ℕ) : ℤ)
        energyWattHours :=
          (((byte data 13) * 2 ^ 24 + (byte data 14) * 2 ^ 16 + (byte data 15) * 2 ^ 8
              + byte data 16 : ℕ) : ℚ) / 100 } := by
  simp [decode, parseFrame, h, Nat.shiftLeft_eq]

/-- Witness for C2: the Scenario B frame decodes to 30.0 V, 5.0 A,
100 mAh, 100.0 Wh. -/
theorem decode_usbPowerMeter_scenarioB :
    scenarioB.length = 36 ∧
    decode .usbPowerMeter scenarioB = .ok ⟨30, 5, 100, 100⟩ := by
  refine ⟨by decide, ?_⟩
  rw [decode_usbPowerMeter_fields scenarioB (by decide),
    show byte scenarioB 5 = 11 from rfl, show byte scenarioB 6 = 184 from rfl,
    show byte scenarioB 8 = 1 from rfl, show byte scenarioB 9 = 244 from rfl,
    show byte scenarioB 10 = 0 from rfl, show byte scenarioB 11 = 0 from rfl,
    show byte scenarioB 12 = 100 from rfl, show byte scenarioB 13 = 0 from rfl,
    show byte scenarioB 14 = 0 from rfl, show byte scenarioB 15 = 39 from rfl,
    show byte scenarioB 16 = 16 from rfl]
  norm_num

/-- Claim C3: for both variants, any frame whose length is not 36
yields `DecodeFailure.wrongLength`, never a reading, and with a
callback registered `handle_data` emits nothing for it. -/
theorem decode_wrong_length (variant : DeviceVariant) (data : List ℕ)
    (h : data.length ≠ 36) :
    decode variant data = .failure .wrongLength ∧
    ∀ st : MeterState, st.callback = some () → (handle_data variant st data).2 = [] := by
  refine ⟨by simp [decode, h], ?_⟩
  intro st hcb
  simp [handle_data, hcb, h]

/-- Witness for C3: a 10-byte all-zero frame is rejected by both
variants and produces no callback invocation. -/
theorem decode_wrong_length_ten_zeros :
    (List.replicate 10 0).length ≠ 36 ∧ stWithCb.callback = some () ∧
    decode .currentLoadMeter (List.replicate 10 0) = .failure .wrongLength ∧
    decode .usbPowerMeter (List.replicate 10 0) = .failure .wrongLength ∧
    (handle_data .currentLoadMeter stWithCb (List.replicate 10 0)).2 = [] := by
  refine ⟨by decide, rfl, ?_, ?_, ?_⟩
  · exact (decode_wrong_length .currentLoadMeter _ (by decide)).1
  · exact (decode_wrong_length .usbPowerMeter _ (by decide)).1
  · exact (decode_wrong_length .currentLoadMeter _ (by decide)).2 stWithCb rfl

/-- Claim C4 (code bug): with a manual MAC address configured and no
device stored yet, the very first non-name-matching scan candidate
makes `find_device` evaluate `self.device.address` on `None` and raise
`AttributeError`, instead of comparing the candidate's own address —
even when that candidate's address is exactly the configured one. -/
theorem find_device_mac_match_raises :
    find_device stMac [⟨"Other", "27:4B:B0:47:69:84"⟩] = .error .attributeError := by
  rfl

/-- Claim C5 (code bug): with a MAC configured, a scan pass holding one
device matching neither name nor address raises `AttributeError`
instead of returning `None`; the empty scan pass does return `None`
without raising. -/
theorem find_device_no_match_behavior :
    find_device stMac [⟨"Other", "AA:BB:CC:DD:EE:FF"⟩] = .error .attributeError ∧
    find_device stMac [] = .ok (stMac, none) := by
  exact ⟨rfl, rfl⟩

/-- Claim C6: with `keep_trying = False` and a first scan pass that
stores no device, `connect` returns `False` after exactly one pass of
`find_device`, regardless of what later scan passes would show and of
the link primitive's result. -/
theorem connect_keep_trying_false_single_pass
    (st : MeterState) (p : List BLEDevice) (rest : List (List BLEDevice))
    (connectOk : Bool) (h0 : st.device = none)
    (h1 : find_device st p = .ok (st, none)) :
    connect false st (p :: rest) connectOk = .returned false st 1 := by
  simp [connect, connectScanLoop, h0, h1]

/-- Witness for C6: a fresh session given an empty first scan pass
returns `False` after one pass even though a later pass would contain
the device. -/
theorem connect_keep_trying_false_single_pass_witness :
    stWithCb.device = none ∧
    find_device stWithCb [] = .ok (stWithCb, none) ∧
    connect false stWithCb ([] :: [[⟨"DL24_BLE", "27:4B:B0:47:69:84"⟩]]) true =
      .returned false stWithCb 1 :=
  ⟨rfl, rfl,
    connect_keep_trying_false_single_pass stWithCb []
      [[⟨"DL24_BLE", "27:4B:B0:47:69:84"⟩]] true rfl rfl⟩

/-- Claim C7: with a callback registered, the pump invokes the
callback exactly once per 36-byte frame, in arrival order, and never
for a frame of any other length: the event stream is the in-order
decoding of exactly the 36-byte frames. -/
theorem pump_filters_and_orders (variant : DeviceVariant) (st : MeterState)
    (frames : List (List ℕ)) (hcb : st.callback = some ()) :
    (pump variant st frames).2 =
      (frames.filter (fun f => f.length == 36)).map
        (fun f => MeterEvent.calledBack (parseFrame variant f)) := by
  induction frames with
  | nil => rfl
  | cons f rest ih =>
    have hst : (handle_data variant st f).1 = st := handle_data_fst variant st f
    by_cases hf : f.length = 36 <;>
      simp [pump, hst, ih, handle_data, hcb, hf]

/-- Witness for C7: a 10-byte all-zero frame followed by the Scenario A
frame yields exactly one callback event, for the Scenario A frame. -/
theorem pump_filters_and_orders_witness :
    stWithCb.callback = some () ∧
    (pump .currentLoadMeter stWithCb [List.replicate 10 0, scenarioA]).2 =
      [MeterEvent.calledBack (parseFrame .currentLoadMeter scenarioA)] := by
  refine ⟨rfl, ?_⟩
  rw [pump_filters_and_orders .currentLoadMeter stWithCb _ rfl]
  rfl

/-- Claim C8: `handle_data` is pure: its observable events depend only
on the frame bytes, the variant and the presence of the callback — not
on any other attribute of the session object — it writes no attribute,
and decoding identical bytes yields identical outcomes. -/
theorem handle_data_pure (variant : DeviceVariant) (data : List ℕ)
    (st1 st2 : MeterState) (h : st1.callback = st2.callback) :
    (handle_data variant st1 data).2 = (handle_data variant st2 data).2 ∧
    (handle_data variant st1 data).1 = st1 ∧
    decode variant data = decode variant data := by
  refine ⟨?_, handle_data_fst variant st1 data, rfl⟩
  rcases hc : st1.callback with _ | u
  · have hc2 : st2.callback = none := by rw [← h, hc]
    simp [handle_data, hc, hc2]
  · have hc2 : st2.callback = some u := by rw [← h, hc]
    by_cases hl : data.length = 36 <;> simp [handle_data, hc, hc2, hl]

/-- Witness for C8: two sessions differing in every attribute except
the callback produce the same events for the Scenario B frame. -/
theorem handle_data_pure_witness :
    stWithCb.callback = stWithCbDev.callback ∧
    (handle_data .usbPowerMeter stWithCb scenarioB).2 =
      (handle_data .usbPowerMeter stWithCbDev scenarioB).2 :=
  ⟨rfl, (handle_data_pure .usbPowerMeter scenarioB stWithCb stWithCbDev rfl).1⟩

/-- Claim C9: the decoded reading depends only on bytes 4..16 of a
36-byte frame — any two 36-byte frames agreeing there decode
identically under both variants — and for the UsbPowerMeter variant
bytes 4 and 7 are not needed either. -/
theorem decode_payload_only :
    (∀ f g : List ℕ, f.length = 36 → g.length = 36 →
      (∀ i, 4 ≤ i → i ≤ 16 → byte f i = byte g i) →
      ∀ variant, decode variant f = decode variant g) ∧
    (∀ f g : List ℕ, f.length = 36 → g.length = 36 →
      (∀ i, i ∈ ([5, 6, 8, 9, 10, 11, 12, 13, 14, 15, 16] : List ℕ) → byte f i = byte g i) →
      decode .usbPowerMeter f = decode .usbPowerMeter g) := by
  constructor
  · intro f g hf hg h variant
    have h4 := h 4 (by norm_num) (by norm_num)
    have h5 := h 5 (by norm_num) (by norm_num)
    have h6 := h 6 (by norm_num) (by norm_num)
    have h7 := h 7 (by norm_num) (by norm_num)
    have h8 := h 8 (by norm_num) (by norm_num)
    have h9 := h 9 (by norm_num) (by norm_num)
    have h10 := h 10 (by norm_num) (by norm_num)
    have h11 := h 11 (by norm_num) (by norm_num)
    have h12 := h 12 (by norm_num) (by norm_num)
    have h13 := h 13 (by norm_num) (by norm_num)
    have h14 := h 14 (by norm_num) (by norm_num)
    have h15 := h 15 (by norm_num) (by norm_num)
    have h16 := h 16 (by norm_num) (by norm_num)
    cases variant <;>
      simp [decode, parseFrame, hf, hg, h4, h5, h6, h7, h8, h9, h10, h11, h12,
        h13, h14, h15, h16]
  · intro f g hf hg h
    have h5 := h 5 (by norm_num)
    have h6 := h 6 (by norm_num)
    have h8 := h 8 (by norm_num)
    have h9 := h 9 (by norm_num)
    have h10 := h 10 (by norm_num)
    have h11 := h 11 (by norm_num)
    have h12 := h 12 (by norm_num)
    have h13 := h 13 (by norm_num)
    have h14 := h 14 (by norm_num)
    have h15 := h 15 (by norm_num)
    have h16 := h 16 (by norm_num)
    simp [decode, parseFrame, hf, hg, h5, h6, h8, h9, h10, h11, h12, h13, h14,
      h15, h16]

/-- Witness for C9: changing only the never-read junk bytes of the
scenario frames (including bytes 4 and 7 for the UD18) leaves the
decoded readings unchanged. -/
theorem decode_payload_only_witness :
    decode .currentLoadMeter scenarioA = decode .currentLoadMeter scenarioAJunk ∧
    decode .usbPowerMeter scenarioB = decode .usbPowerMeter scenarioBJunk := by
  constructor
  · exact decode_payload_only.1 scenarioA scenarioAJunk (by decide) (by decide)
      (fun i h1 h2 => by interval_cases i <;> rfl) .currentLoadMeter
  · exact decode_payload_only.2 scenarioB scenarioBJunk (by decide) (by decide)
      (fun i hi => by fin_cases hi <;> rfl)

/-- Claim C10: with no callback registered, `handle_data` never
decodes and never produces a reading for a frame of any length; the
frame — wrong-length ones included — is rendered as hex output, the
36-byte gate being applied only when a callback is set. -/
theorem handle_data_no_callback (variant : DeviceVariant) (st : MeterState)
    (data : List ℕ) (h : st.callback = none) :
    handle_data variant st data = (st, [.printed ("data: " ++ (hexLine data).trim)]) ∧
    ∀ r : Reading, MeterEvent.calledBack r ∉ (handle_data variant st data).2 := by
  refine ⟨by simp [handle_data, h], ?_⟩
  intro r
  simp [handle_data, h]

/-- Witness for C10: in raw-dump mode a 10-byte all-zero frame is
printed as hex, with no callback event. -/
theorem handle_data_no_callback_witness :
    stNoCb.callback = none ∧
    handle_data .currentLoadMeter stNoCb (List.replicate 10 0) =
      (stNoCb, [.printed ("data: " ++ (hexLine (List.replicate 10 0)).trim)]) ∧
    MeterEvent.calledBack (parseFrame .currentLoadMeter scenarioA) ∉
      (handle_data .currentLoadMeter stNoCb (List.replicate 10 0)).2 := by
  refine ⟨rfl, ?_, ?_⟩
  · exact (handle_data_no_callback .currentLoadMeter stNoCb (List.replicate 10 0) rfl).1
  · exact (handle_data_no_callback .currentLoadMeter stNoCb (List.replicate 10 0) rfl).2 _

end UDMeter
